import Mathlib

/-!
Verification of the kite-api-wrapper credential-resolution and
response-classification core.

The definitions below are a shallow embedding of the Python sources:
  * `kite_wrapper/config.py`  (KiteConfig._load_config, KiteConfig.set_access_token)
  * `kite_wrapper/client.py`  (KiteClient._request classification, _update_headers,
                               generate_session, get_quote, _exception_map)
  * `kite_wrapper/exceptions.py` (the exception hierarchy)

Python `None`-able strings are modelled as `Option String`; Python
truthiness of such a value (`if not x`) is `pyTruthy`.  Exceptions are
modelled as values of `KiteExc`, whose `kind` distinguishes the base
class `KiteException` (`ExcKind.base`) from its seven subclasses.
-/

/-- The exception hierarchy of `exceptions.py`: `base` is the root class
`KiteException`, the remaining constructors are its seven subclasses. -/
inductive ExcKind where
  | base
  | general
  | token
  | permission
  | order
  | input
  | data
  | network
deriving DecidableEq, Repr

/-- A raised exception: every class in `exceptions.py` carries a message and
an optional numeric `code`. -/
structure KiteExc where
  kind : ExcKind
  message : String
  code : Option Nat
deriving DecidableEq, Repr

/-- Python truthiness of an optional string: `None` and `""` are falsy. -/
def pyTruthy : Option String → Bool
  | none => false
  | some s => s != ""

/-- Lookup in a Python dict modelled as an association list
(first match; Python dicts have unique keys). -/
def dictGet : List (String × String) → String → Option String
  | [], _ => none
  | p :: rest, k => if p.1 = k then some p.2 else dictGet rest k

/-- Assignment `d[k] = v` into a Python dict / configparser section:
replace the entry for `k` if present, else append it. -/
def dictUpsert : List (String × String) → String → String → List (String × String)
  | [], k, v => [(k, v)]
  | p :: rest, k, v => if p.1 = k then (k, v) :: rest else p :: dictUpsert rest k v

/-! ## KiteConfig (config.py) -/

/-- The three credential fields held by `KiteConfig`. -/
structure Creds where
  api_key : Option String
  api_secret : Option String
  access_token : Option String
deriving DecidableEq, Repr

/-- The environment variables consulted by `_load_config`
(`os.environ.get` returns `None` for an unset variable). -/
structure EnvView where
  kite_api_key : Option String
  kite_api_secret : Option String
  kite_access_token : Option String
deriving DecidableEq, Repr

/-- The `[Kite]` section of the config file as seen through
`kite_section.get(...)` (each key may be missing). -/
structure KiteSection where
  api_key : Option String
  api_secret : Option String
  access_token : Option String
deriving DecidableEq, Repr

/-- `if self.x is None: self.x = v` — fill a field only when it is `None`. -/
def fillIfNone (cur v : Option String) : Option String :=
  match cur with
  | none => v
  | some s => some s

/-- The field-resolution part of `KiteConfig._load_config`.
`file` is `none` when `os.path.exists(config_path)` is false; `some none`
when the file exists but has no `"Kite"` section (including an unreadable
file, which `configparser.read` skips silently); `some (some sec)` when
the section is present.  Explicit constructor parameters arrive already
assigned to the fields of `explicitC`. -/
def resolveCreds (explicitC : Creds) (env : EnvView) (file : Option (Option KiteSection)) :
    Creds :=
  let k := fillIfNone explicitC.api_key env.kite_api_key
  let s := fillIfNone explicitC.api_secret env.kite_api_secret
  let t := fillIfNone explicitC.access_token env.kite_access_token
  match file with
  | some (some sec) =>
      { api_key := fillIfNone k sec.api_key
        api_secret := fillIfNone s sec.api_secret
        access_token := fillIfNone t sec.access_token }
  | _ => { api_key := k, api_secret := s, access_token := t }

/-- The message of the `DataException` raised by `_load_config`. -/
def missingMsg : String :=
  "API key or secret is missing. Please set them in config or environment variables."

/-- `KiteConfig._load_config`: resolve the three fields by precedence, then
`if not self.api_key or not self.api_secret: raise DataException(...)`. -/
def loadConfig (explicitC : Creds) (env : EnvView) (file : Option (Option KiteSection)) :
    Except KiteExc Creds :=
  let c := resolveCreds explicitC env file
  if !pyTruthy c.api_key || !pyTruthy c.api_secret then
    .error { kind := .data, message := missingMsg, code := none }
  else
    .ok c

/-- Spec-side definition, following the specification words: the value of the
highest-precedence source that is present, with precedence
explicit parameter > environment variable > config-file value. -/
def highestPresent (explicitV envV fileV : Option String) : Option String :=
  match explicitV with
  | some v => some v
  | none =>
    match envV with
    | some v => some v
    | none => fileV

/-- Spec-side view of the config file as a per-field source: a field value is
only available when the file exists and the `"Kite"` section is present. -/
def fileSectionValue (file : Option (Option KiteSection)) (proj : KiteSection → Option String) :
    Option String :=
  match file with
  | some (some sec) => proj sec
  | _ => none

/-! ## Response classification (client.py `_request`) -/

/-- Prefix test on character lists, used for the Python substring test. -/
def listIsPrefix : List Char → List Char → Bool
  | [], _ => true
  | _ :: _, [] => false
  | a :: as, b :: bs => a == b && listIsPrefix as bs

/-- Substring occurrence on character lists. -/
def listContainsSub (needle : List Char) : List Char → Bool
  | [] => listIsPrefix needle []
  | c :: rest => listIsPrefix needle (c :: rest) || listContainsSub needle rest

/-- Python `"application/json" in response.headers.get("content-type", "")`. -/
def isJsonContent (ct : String) : Bool :=
  listContainsSub "application/json".data ct.data

/-- The value produced by `response.json()`: a dict (modelled as an
association list of string fields, which is all the classifier reads),
or some other JSON value. -/
inductive JsonBody where
  | dict (fields : List (String × String))
  | other
deriving DecidableEq, Repr

/-- An HTTP response as `_request` sees it: status code, declared
content type, the JSON parse outcome (`none` models the `ValueError`
raised by `response.json()`), and the raw body text. -/
structure HttpResponse where
  status_code : Nat
  content_type : String
  parsed : Option JsonBody
  text : String
deriving DecidableEq, Repr

/-- The value `_request` returns on success: a parsed JSON body, or the
raw text for non-JSON content types. -/
inductive ResponseData where
  | json (b : JsonBody)
  | text (s : String)
deriving DecidableEq, Repr

/-- `KiteClient._exception_map`: remote `error_type` tags (and collaborator
exception class names) to exception kinds. -/
def exceptionMap : List (String × ExcKind) :=
  [("TokenException", .token),
   ("GeneralException", .general),
   ("PermissionException", .permission),
   ("OrderException", .order),
   ("InputException", .input),
   ("DataException", .data),
   ("NetworkException", .network)]

/-- `self._exception_map.get(name)` — `none` when the tag is unrecognized. -/
def mapLookup : List (String × ExcKind) → String → Option ExcKind
  | [], _ => none
  | p :: rest, k => if p.1 = k then some p.2 else mapLookup rest k

/-- First stage of `_request` after transport: obtain `data` from the
response (JSON parse for JSON content types, raw text otherwise). -/
def parseBody (r : HttpResponse) : Except KiteExc ResponseData :=
  if isJsonContent r.content_type then
    match r.parsed with
    | none =>
        .error { kind := .data
               , message := "Failed to parse JSON response: " ++ r.text
               , code := none }
    | some b => .ok (.json b)
  else
    .ok (.text r.text)

/-- The message of the generic `KiteException` raised for an error status
without a usable `error_type` tag. -/
def httpErrorMsg (r : HttpResponse) : String :=
  "HTTP error: " ++ toString r.status_code ++ " - " ++ r.text

/-- The response-classification tail of `KiteClient._request`: parse the
body, then for `status_code >= 400` raise the mapped exception when the
body is a dict with a truthy `error_type` (unrecognized tags fall back to
the base `KiteException`), else raise a generic base `KiteException`;
for lower status codes return the data unchanged. -/
def classifyResponse (r : HttpResponse) : Except KiteExc ResponseData :=
  match parseBody r with
  | .error e => .error e
  | .ok d =>
    if r.status_code ≥ 400 then
      match d with
      | .json (.dict fields) =>
        if pyTruthy (dictGet fields "error_type") then
          .error { kind := (mapLookup exceptionMap ((dictGet fields "error_type").getD "")).getD .base
                 , message := (dictGet fields "message").getD "Unknown error"
                 , code := some r.status_code }
        else
          .error { kind := .base, message := httpErrorMsg r, code := some r.status_code }
      | _ =>
          .error { kind := .base, message := httpErrorMsg r, code := some r.status_code }
    else
      .ok d

/-! ## Session headers (client.py `_update_headers`) -/

/-- `KiteClient._update_headers`: build the header dict
(`X-Kite-Version`, `User-Agent`, and `Authorization` only when
`self.api_key` is truthy) and merge it into the session headers with
`session.headers.update(headers)` — existing keys not in the dict are
left untouched. -/
def updateHeaders (apiKey accessToken : Option String)
    (session : List (String × String)) : List (String × String) :=
  let base := dictUpsert (dictUpsert session "X-Kite-Version" "3")
      "User-Agent" "KiteConnect-Python/3"
  if pyTruthy apiKey then
    dictUpsert base "Authorization"
      ("token " ++ apiKey.getD "" ++ ":" ++
        (if pyTruthy accessToken then accessToken.getD "" else ""))
  else
    base

/-! ## Session generation (client.py `generate_session`) -/

/-- What the collaborating library call
`kite_connect_client.generate_session(request_token, api_secret=...)`
does: return a session dict, raise an exception that is one of the
wrapper taxonomy (`raiseKite` — the branch `except KiteException: raise`),
or raise a foreign exception with a class name, a `str(e)` rendering, and
optionally both a `message` and a `code` attribute (`hasattr` checks). -/
inductive CollabOutcome where
  | ok (session_data : List (String × String))
  | raiseKite (e : KiteExc)
  | raiseOther (name : String) (display : String) (attrs : Option (String × Option Nat))
deriving DecidableEq, Repr

/-- The observable outcome of `KiteClient.generate_session`: the returned
session data or raised exception, the number of collaborator transport
calls made, and the access token stored via `set_access_token` (if any). -/
structure GenResult where
  outcome : Except KiteExc (List (String × String))
  transportCalls : Nat
  newToken : Option String

/-- `KiteClient.generate_session`. `clientInit` is whether
`self.kite_connect_client` was initialized; `selfSecret` is
`self.api_secret`; `argSecret` is the `api_secret` argument; `collab`
gives the collaborator behaviour for the exchange call made with the
given request token and secret. -/
def generateSession (clientInit : Bool) (selfSecret argSecret : Option String)
    (requestToken : String) (collab : String → String → CollabOutcome) : GenResult :=
  if !clientInit then
    { outcome := .error { kind := .general
                        , message := "KiteConnect client not initialized. Cannot generate session."
                        , code := none }
      transportCalls := 0, newToken := none }
  else
    let secretToUse := if pyTruthy argSecret then argSecret else selfSecret
    if !pyTruthy secretToUse then
      { outcome := .error { kind := .input
                          , message := "API secret is required to generate a session."
                          , code := none }
        transportCalls := 0, newToken := none }
    else
      match collab requestToken (secretToUse.getD "") with
      | .ok sd =>
        match dictGet sd "access_token" with
        | some tok => { outcome := .ok sd, transportCalls := 1, newToken := some tok }
        | none =>
          { outcome := .error { kind := .token
                              , message := "Failed to generate session: \x27access_token\x27 not found in response."
                              , code := (dictGet sd "status_code").bind String.toNat? }
            transportCalls := 1, newToken := none }
      | .raiseKite e => { outcome := .error e, transportCalls := 1, newToken := none }
      | .raiseOther name display attrs =>
        match attrs with
        | some (msg, c) =>
          match mapLookup exceptionMap name with
          | some k =>
            { outcome := .error { kind := k, message := msg, code := c }
              transportCalls := 1, newToken := none }
          | none =>
            { outcome := .error { kind := .general
                                , message := "Underlying library error (" ++ name ++ "): " ++ msg
                                , code := c }
              transportCalls := 1, newToken := none }
        | none =>
          { outcome := .error { kind := .general
                              , message := "An underlying error occurred during session generation: " ++ display
                              , code := none }
            transportCalls := 1, newToken := none }

/-! ## get_quote (client.py) -/

/-- The transport request `get_quote` hands to `_request`. -/
structure RequestSpec where
  method : String
  route : String
  params : List (String × List String)
deriving DecidableEq, Repr

/-- The observable outcome of `KiteClient.get_quote`: the raised exception
or the request issued, and the number of `_request` calls made. -/
structure QuoteCall where
  outcome : Except KiteExc RequestSpec
  transportCalls : Nat

/-- `KiteClient.get_quote(*instruments)`: an empty tuple fails locally with
`InputException`; otherwise `_request("GET", "/quote", params={"i": list(instruments)})`. -/
def getQuote (instruments : List String) : QuoteCall :=
  if instruments.isEmpty then
    { outcome := .error { kind := .input
                        , message := "At least one instrument must be provided for a quote."
                        , code := none }
      transportCalls := 0 }
  else
    { outcome := .ok { method := "GET", route := "/quote", params := [("i", instruments)] }
      transportCalls := 1 }

/-! ## Token persistence (config.py `set_access_token`) -/

/-- An INI file as configparser sees it: ordered sections of key-value pairs. -/
abbrev Ini := List (String × List (String × String))

/-- First section with the given name. -/
def iniSection : Ini → String → Option (List (String × String))
  | [], _ => none
  | p :: rest, s => if p.1 = s then some p.2 else iniSection rest s

/-- `parser[s][k]` read access across the whole file. -/
def iniGetValue (ini : Ini) (s k : String) : Option String :=
  match iniSection ini s with
  | none => none
  | some sec => dictGet sec k

/-- `parser.add_section(s)` (when missing) followed by `parser[s][k] = v`:
update the named section in place, appending the section when absent. -/
def iniSetValue : Ini → String → String → String → Ini
  | [], s, k, v => [(s, [(k, v)])]
  | (name, sec) :: rest, s, k, v =>
    if name = s then (name, dictUpsert sec k v) :: rest
    else (name, sec) :: iniSetValue rest s k v

/-- The state `KiteConfig.set_access_token` acts on: the in-memory
`access_token` and the config file (`none` when no file exists at
`config_path`). -/
structure ConfigState where
  access_token : Option String
  file : Option Ini

/-- `KiteConfig.set_access_token`: always update the in-memory token; when
the file exists, read it, upsert `["Kite"]["access_token"]`, and write it
back — a failing write (`writable = false`, the `except IOError: pass`
branch) leaves the file unchanged; a missing file is never created. -/
def setAccessToken (st : ConfigState) (writable : Bool) (token : String) : ConfigState :=
  let st1 : ConfigState := { st with access_token := some token }
  match st1.file with
  | none => st1
  | some ini =>
    let newIni := iniSetValue ini "Kite" "access_token" token
    if writable then { st1 with file := some newIni } else st1

/-! ## Helper lemmas -/

lemma fillIfNone_hp (a b : Option String) : fillIfNone a b = highestPresent a b none := by
  cases a <;> cases b <;> rfl

lemma fillIfNone_fill (a b c : Option String) :
    fillIfNone (fillIfNone a b) c = highestPresent a b c := by
  cases a <;> cases b <;> cases c <;> rfl

lemma dictGet_upsert_self (d : List (String × String)) (k v : String) :
    dictGet (dictUpsert d k v) k = some v := by
  induction d with
  | nil => simp [dictUpsert, dictGet]
  | cons p rest ih =>
    by_cases h : p.1 = k
    · simp [dictUpsert, dictGet, h]
    · simp [dictUpsert, dictGet, h, ih]

lemma dictGet_upsert_ne (d : List (String × String)) (k v k2 : String) (h : k2 ≠ k) :
    dictGet (dictUpsert d k v) k2 = dictGet d k2 := by
  have hk : ¬(k = k2) := fun hh => h hh.symm
  induction d with
  | nil => simp [dictUpsert, dictGet, hk]
  | cons p rest ih =>
    by_cases hp : p.1 = k
    · simp [dictUpsert, dictGet, hp, hk]
    · by_cases hp2 : p.1 = k2 <;> simp [dictUpsert, dictGet, hp, hp2, ih, h]

lemma iniSection_set_self (ini : Ini) (s k v : String) :
    iniSection (iniSetValue ini s k v) s
      = some (dictUpsert ((iniSection ini s).getD []) k v) := by
  induction ini with
  | nil => simp [iniSetValue, iniSection, dictUpsert]
  | cons p rest ih =>
    by_cases hp : p.1 = s
    · simp [iniSetValue, iniSection, hp]
    · simp [iniSetValue, iniSection, hp, ih]

lemma iniSection_set_ne (ini : Ini) (s k v s2 : String) (h : s2 ≠ s) :
    iniSection (iniSetValue ini s k v) s2 = iniSection ini s2 := by
  have hs : ¬(s = s2) := fun hh => h hh.symm
  induction ini with
  | nil => simp [iniSetValue, iniSection, hs]
  | cons p rest ih =>
    by_cases hp : p.1 = s
    · simp [iniSetValue, iniSection, hp, hs]
    · by_cases hp2 : p.1 = s2 <;> simp [iniSetValue, iniSection, hp, hp2, ih, h]

lemma tokenPart_eq (t : Option String) :
    (if pyTruthy t then t.getD "" else "") = t.getD "" := by
  cases t with
  | none => rfl
  | some s => by_cases h : s = "" <;> simp [pyTruthy, h]

/-! ## Claims -/

/-- C1: For every credential field (api_key, api_secret, access_token)
independently, the value resolved by KiteConfig construction equals the
highest-precedence source that is present, with precedence
explicit parameter > environment variable > config-file value; a field
may come from a different source than its siblings in the same call. -/
theorem c1_credential_precedence (e : Creds) (env : EnvView)
    (f : Option (Option KiteSection)) :
    (resolveCreds e env f).api_key
        = highestPresent e.api_key env.kite_api_key (fileSectionValue f KiteSection.api_key)
    ∧ (resolveCreds e env f).api_secret
        = highestPresent e.api_secret env.kite_api_secret
            (fileSectionValue f KiteSection.api_secret)
    ∧ (resolveCreds e env f).access_token
        = highestPresent e.access_token env.kite_access_token
            (fileSectionValue f KiteSection.access_token) := by
  rcases f with _ | (_ | sec)
  · exact ⟨by simp [resolveCreds, fileSectionValue, fillIfNone_hp],
           by simp [resolveCreds, fileSectionValue, fillIfNone_hp],
           by simp [resolveCreds, fileSectionValue, fillIfNone_hp]⟩
  · exact ⟨by simp [resolveCreds, fileSectionValue, fillIfNone_hp],
           by simp [resolveCreds, fileSectionValue, fillIfNone_hp],
           by simp [resolveCreds, fileSectionValue, fillIfNone_hp]⟩
  · exact ⟨by simp [resolveCreds, fileSectionValue, fillIfNone_fill],
           by simp [resolveCreds, fileSectionValue, fillIfNone_fill],
           by simp [resolveCreds, fileSectionValue, fillIfNone_fill]⟩

/-- C2 (counterexample): construction with an explicit empty-string api_key
fails with the Data error even though, after the three-step precedence, the
resolved api_key and api_secret are both present (the claim says resolution
fails only when one of them is absent). -/
theorem c2_counterexample :
    loadConfig { api_key := some "", api_secret := some "s", access_token := none }
        { kite_api_key := some "E", kite_api_secret := none, kite_access_token := none }
        none
      = .error { kind := .data, message := missingMsg, code := none }
    ∧ (resolveCreds { api_key := some "", api_secret := some "s", access_token := none }
        { kite_api_key := some "E", kite_api_secret := none, kite_access_token := none }
        none).api_key = some ""
    ∧ (resolveCreds { api_key := some "", api_secret := some "s", access_token := none }
        { kite_api_key := some "E", kite_api_secret := none, kite_access_token := none }
        none).api_secret = some "s" :=
  ⟨rfl, rfl, rfl⟩

/-- C2 (amended): credential resolution fails — always with the Data-kind
error stating "API key or secret is missing" — if and only if, after the
three-step precedence, the resolved api_key or api_secret is absent or the
empty string (Python falsy); otherwise it succeeds with the resolved
credentials.  Absence of access_token, and an absent, unreadable or
section-less config file, never fail resolution by themselves. -/
theorem c2_missing_credentials (e : Creds) (env : EnvView)
    (f : Option (Option KiteSection)) :
    (loadConfig e env f = .error { kind := .data, message := missingMsg, code := none }
        ↔ (pyTruthy (resolveCreds e env f).api_key = false
            ∨ pyTruthy (resolveCreds e env f).api_secret = false))
    ∧ (pyTruthy (resolveCreds e env f).api_key = true →
        pyTruthy (resolveCreds e env f).api_secret = true →
        loadConfig e env f = .ok (resolveCreds e env f)) := by
  unfold loadConfig
  rcases h1 : pyTruthy (resolveCreds e env f).api_key <;>
    rcases h2 : pyTruthy (resolveCreds e env f).api_secret <;>
      simp [h1, h2]

/-- C2 witness: the end-to-end scenario (env provides key and secret, file
provides a token) satisfies the amended claim's success branch. -/
theorem c2_missing_credentials_witness :
    loadConfig { api_key := none, api_secret := none, access_token := none }
        { kite_api_key := some "E", kite_api_secret := some "E2", kite_access_token := none }
        (some (some { api_key := some "F", api_secret := none, access_token := some "F2" }))
      = .ok { api_key := some "E", api_secret := some "E2", access_token := some "F2" } :=
  (c2_missing_credentials { api_key := none, api_secret := none, access_token := none }
    { kite_api_key := some "E", kite_api_secret := some "E2", kite_access_token := none }
    (some (some { api_key := some "F", api_secret := none, access_token := some "F2" }))).2
    rfl rfl

/-- C3 (counterexample): a JSON error response whose error_type tag
("FooException") is present but outside the seven-tag taxonomy is raised as
the base KiteException, not as the General kind the claim requires. -/
theorem c3_counterexample :
    classifyResponse
        { status_code := 500, content_type := "application/json"
        , parsed := some (.dict [("error_type", "FooException"), ("message", "weird")])
        , text := "raw body" }
      = .error { kind := .base, message := "weird", code := some 500 }
    ∧ ExcKind.base ≠ ExcKind.general := ⟨rfl, by decide⟩

/-- C3 (amended): for every JSON response with a parsed dict body, status
code >= 400, and a (truthy) error_type tag not in the seven-tag taxonomy,
the classifier raises the generic base KiteException — not a taxonomy
kind — still carrying the body's message field (default "Unknown error")
and the HTTP status code; the raised kind is thus always the base class
or one of the seven mapped kinds, never a kind outside the hierarchy. -/
theorem c3_unrecognized_tag (r : HttpResponse) (fields : List (String × String))
    (et : String)
    (hct : isJsonContent r.content_type = true)
    (hp : r.parsed = some (.dict fields))
    (hs : r.status_code ≥ 400)
    (het : dictGet fields "error_type" = some et)
    (hne : et ≠ "")
    (hmap : mapLookup exceptionMap et = none) :
    classifyResponse r
      = .error { kind := .base
               , message := (dictGet fields "message").getD "Unknown error"
               , code := some r.status_code } := by
  simp [classifyResponse, parseBody, hct, hp, hs, het, hmap, pyTruthy, hne]

/-- C3 witness: a 502 response with the unrecognized tag "WeirdException". -/
theorem c3_unrecognized_tag_witness :
    classifyResponse
        { status_code := 502, content_type := "application/json"
        , parsed := some (.dict [("error_type", "WeirdException"), ("message", "odd failure")])
        , text := "raw" }
      = .error { kind := .base, message := "odd failure", code := some 502 } :=
  c3_unrecognized_tag
    { status_code := 502, content_type := "application/json"
    , parsed := some (.dict [("error_type", "WeirdException"), ("message", "odd failure")])
    , text := "raw" }
    [("error_type", "WeirdException"), ("message", "odd failure")]
    "WeirdException" (by decide) rfl (by decide) rfl (by decide) rfl

/-- C4: for every JSON response with a parsed dict body, status code >= 400,
and a recognized (truthy) error_type tag, the classifier raises the
exception of the mapped kind whose message equals the body's message field
and whose code equals the HTTP status code. -/
theorem c4_recognized_tag (r : HttpResponse) (fields : List (String × String))
    (et m : String) (k : ExcKind)
    (hct : isJsonContent r.content_type = true)
    (hp : r.parsed = some (.dict fields))
    (hs : r.status_code ≥ 400)
    (het : dictGet fields "error_type" = some et)
    (hne : et ≠ "")
    (hmap : mapLookup exceptionMap et = some k)
    (hm : dictGet fields "message" = some m) :
    classifyResponse r = .error { kind := k, message := m, code := some r.status_code } := by
  simp [classifyResponse, parseBody, hct, hp, hs, het, hmap, hm, pyTruthy, hne]

/-- C4 witness: status 403 with error_type "TokenException" and message
"Access token is invalid or expired" raises the Token kind with code 403
and that exact message. -/
theorem c4_recognized_tag_witness :
    classifyResponse
        { status_code := 403, content_type := "application/json"
        , parsed := some (.dict [("error_type", "TokenException"),
                                 ("message", "Access token is invalid or expired")])
        , text := "" }
      = .error { kind := .token, message := "Access token is invalid or expired"
               , code := some 403 } :=
  c4_recognized_tag
    { status_code := 403, content_type := "application/json"
    , parsed := some (.dict [("error_type", "TokenException"),
                             ("message", "Access token is invalid or expired")])
    , text := "" }
    [("error_type", "TokenException"), ("message", "Access token is invalid or expired")]
    "TokenException" "Access token is invalid or expired" .token
    (by decide) rfl (by decide) rfl (by decide) rfl rfl

/-- C5: for every response whose declared content type is not JSON, only the
status code decides: status < 400 returns the raw body text as success
regardless of content, and status >= 400 raises the generic base
KiteException carrying the status code and the raw response text. -/
theorem c5_non_json_passthrough (r : HttpResponse)
    (hct : isJsonContent r.content_type = false) :
    (r.status_code < 400 → classifyResponse r = .ok (.text r.text))
    ∧ (r.status_code ≥ 400 →
        classifyResponse r
          = .error { kind := .base, message := httpErrorMsg r
                   , code := some r.status_code }) := by
  constructor
  · intro h
    simp [classifyResponse, parseBody, hct, Nat.not_le.mpr h]
  · intro h
    simp [classifyResponse, parseBody, hct, h]

/-- C5 witness: a 404 with non-JSON body "Resource not found (HTML page)"
yields the generic error with code 404 and that text in the message, and a
200 CSV response passes through as raw text. -/
theorem c5_non_json_passthrough_witness :
    classifyResponse
        { status_code := 404, content_type := "text/html", parsed := none
        , text := "Resource not found (HTML page)" }
      = .error { kind := .base
               , message := "HTTP error: 404 - Resource not found (HTML page)"
               , code := some 404 }
    ∧ classifyResponse
        { status_code := 200, content_type := "text/csv", parsed := none
        , text := "col1,col2" }
      = .ok (.text "col1,col2") :=
  ⟨(c5_non_json_passthrough
      { status_code := 404, content_type := "text/html", parsed := none
      , text := "Resource not found (HTML page)" } (by decide)).2 (by decide),
   (c5_non_json_passthrough
      { status_code := 200, content_type := "text/csv", parsed := none
      , text := "col1,col2" } (by decide)).1 (by decide)⟩

/-- C6: set_access_token on an existing writable config file preserves all
pre-existing sections and keys and updates exactly the access_token field
inside the "Kite" section; on a missing file it is a no-op that does not
create the file; on an existing but unwritable file the file is left
unchanged; in every case the in-memory access_token becomes the new value
(and, the function being total, nothing is ever raised). -/
theorem c6_persist_token (st : ConfigState) (writable : Bool) (token : String) :
    (setAccessToken st writable token).access_token = some token
    ∧ (st.file = none → (setAccessToken st writable token).file = none)
    ∧ (∀ ini, st.file = some ini → writable = false →
        (setAccessToken st writable token).file = some ini)
    ∧ (∀ ini, st.file = some ini → writable = true →
        (setAccessToken st writable token).file
            = some (iniSetValue ini "Kite" "access_token" token)
        ∧ iniGetValue (iniSetValue ini "Kite" "access_token" token) "Kite" "access_token"
            = some token
        ∧ ∀ s k, ¬(s = "Kite" ∧ k = "access_token") →
            iniGetValue (iniSetValue ini "Kite" "access_token" token) s k
              = iniGetValue ini s k) := by
  refine ⟨?_, ?_, ?_, ?_⟩
  · cases writable <;> rcases hf : st.file with _ | ini <;> simp [setAccessToken, hf]
  · intro hf
    simp [setAccessToken, hf]
  · intro ini hf hw
    simp [setAccessToken, hf, hw]
  · intro ini hf hw
    refine ⟨by simp [setAccessToken, hf, hw], ?_, ?_⟩
    · rw [iniGetValue, iniSection_set_self]
      exact dictGet_upsert_self _ _ _
    · intro s k hne
      by_cases hsec : s = "Kite"
      · subst hsec
        have hk : k ≠ "access_token" := fun hh => hne ⟨rfl, hh⟩
        rw [iniGetValue, iniSection_set_self]
        show dictGet (dictUpsert ((iniSection ini "Kite").getD []) "access_token" token) k
          = iniGetValue ini "Kite" k
        rw [dictGet_upsert_ne _ _ _ _ hk]
        rcases h2 : iniSection ini "Kite" with _ | sec
        · simp [iniGetValue, h2, dictGet]
        · simp [iniGetValue, h2]
      · rw [iniGetValue, iniSection_set_ne _ _ _ _ _ hsec, iniGetValue]

/-- C6 witness: on a two-section file, the update sets [Kite] access_token
and leaves the other section and the sibling key [Kite] api_key intact. -/
theorem c6_persist_token_witness :
    (setAccessToken
        { access_token := some "old"
        , file := some [("Other", [("a", "1")]),
                        ("Kite", [("api_key", "k"), ("access_token", "old")])] }
        true "new").access_token = some "new"
    ∧ (setAccessToken
        { access_token := some "old"
        , file := some [("Other", [("a", "1")]),
                        ("Kite", [("api_key", "k"), ("access_token", "old")])] }
        true "new").file
      = some (iniSetValue [("Other", [("a", "1")]),
                           ("Kite", [("api_key", "k"), ("access_token", "old")])]
               "Kite" "access_token" "new")
    ∧ iniGetValue (iniSetValue [("Other", [("a", "1")]),
                                ("Kite", [("api_key", "k"), ("access_token", "old")])]
                    "Kite" "access_token" "new") "Kite" "access_token" = some "new"
    ∧ iniGetValue (iniSetValue [("Other", [("a", "1")]),
                                ("Kite", [("api_key", "k"), ("access_token", "old")])]
                    "Kite" "access_token" "new") "Other" "a" = some "1"
    ∧ iniGetValue (iniSetValue [("Other", [("a", "1")]),
                                ("Kite", [("api_key", "k"), ("access_token", "old")])]
                    "Kite" "access_token" "new") "Kite" "api_key" = some "k" := by
  have h := c6_persist_token
    { access_token := some "old"
    , file := some [("Other", [("a", "1")]),
                    ("Kite", [("api_key", "k"), ("access_token", "old")])] }
    true "new"
  have h4 := h.2.2.2 _ rfl rfl
  refine ⟨h.1, h4.1, h4.2.1, ?_, ?_⟩
  · have := h4.2.2 "Other" "a" (by simp)
    rw [this]
    rfl
  · have := h4.2.2 "Kite" "api_key" (by simp)
    rw [this]
    rfl

/-- C7: a generate_session call on an initialized client with api_secret
absent both as an argument and in the resolved credentials raises the
Input-kind error immediately, with zero transport calls recorded,
whatever the collaborator would have done. -/
theorem c7_no_secret_no_exchange (clientInit : Bool) (requestToken : String)
    (collab : String → String → CollabOutcome)
    (hinit : clientInit = true) :
    (generateSession clientInit none none requestToken collab).outcome
        = .error { kind := .input
                 , message := "API secret is required to generate a session."
                 , code := none }
    ∧ (generateSession clientInit none none requestToken collab).transportCalls = 0 := by
  subst hinit
  exact ⟨rfl, rfl⟩

/-- C7 witness: concrete call with a collaborator that would have succeeded. -/
theorem c7_no_secret_no_exchange_witness :
    (generateSession true none none "rt" (fun _ _ => .ok [("access_token", "t")])).outcome
        = .error { kind := .input
                 , message := "API secret is required to generate a session."
                 , code := none }
    ∧ (generateSession true none none "rt"
        (fun _ _ => .ok [("access_token", "t")])).transportCalls = 0 :=
  c7_no_secret_no_exchange true "rt" (fun _ _ => .ok [("access_token", "t")]) rfl

/-- C8 (counterexample): a collaborator exception that is not a wrapper kind
but whose class name is "TokenException" (with message and code attributes)
is re-raised as the Token kind, not wrapped as General as the claim says. -/
theorem c8_counterexample :
    (generateSession true (some "sec") none "rt"
        (fun _ _ => .raiseOther "TokenException" "Invalid request token"
            (some ("Invalid request token", some 403)))).outcome
      = .error { kind := .token, message := "Invalid request token", code := some 403 }
    ∧ ExcKind.token ≠ ExcKind.general := ⟨rfl, by decide⟩

/-- C8 (amended): for an unexpected non-taxonomy exception from the
collaborating library during generate_session (on an initialized client
with a truthy secret): if the exception exposes message and code
attributes and its class name matches a taxonomy entry, it is re-raised as
that kind with the original message and code; if the name matches no
taxonomy entry, it is wrapped as General, carrying the original message
and the code when available; without message/code attributes it is wrapped
as General from its string rendering, with no code. -/
theorem c8_collaborator_exception_wrapped (selfSecret argSecret : Option String)
    (requestToken name display msg : String) (c : Option Nat)
    (hsec : pyTruthy (if pyTruthy argSecret then argSecret else selfSecret) = true) :
    (mapLookup exceptionMap name = none →
      (generateSession true selfSecret argSecret requestToken
          (fun _ _ => .raiseOther name display (some (msg, c)))).outcome
        = .error { kind := .general
                 , message := "Underlying library error (" ++ name ++ "): " ++ msg
                 , code := c })
    ∧ (∀ k, mapLookup exceptionMap name = some k →
        (generateSession true selfSecret argSecret requestToken
            (fun _ _ => .raiseOther name display (some (msg, c)))).outcome
          = .error { kind := k, message := msg, code := c })
    ∧ ((generateSession true selfSecret argSecret requestToken
          (fun _ _ => .raiseOther name display none)).outcome
        = .error { kind := .general
                 , message := "An underlying error occurred during session generation: "
                     ++ display
                 , code := none }) := by
  refine ⟨?_, ?_, ?_⟩
  · intro hmap
    simp [generateSession, hsec, hmap]
  · intro k hmap
    simp [generateSession, hsec, hmap]
  · simp [generateSession, hsec]

/-- C8 witness: a foreign "ValueError" with message and code attributes is
wrapped as General with the original message and code. -/
theorem c8_collaborator_exception_wrapped_witness :
    (generateSession true (some "sec") none "rt"
        (fun _ _ => .raiseOther "ValueError" "boom" (some ("boom", some 500)))).outcome
      = .error { kind := .general
               , message := "Underlying library error (ValueError): boom"
               , code := some 500 } :=
  (c8_collaborator_exception_wrapped (some "sec") none "rt" "ValueError" "boom" "boom"
    (some 500) (by decide)).1 (by decide)

/-- C9: whenever the session headers are recomputed by _update_headers, if
api_key is (truthily) present the Authorization header equals
"token <api_key>:<access_token>" with the empty string substituted for an
absent access_token; if api_key is absent no Authorization header is set —
the update leaves any existing Authorization entry exactly as it was; and
the X-Kite-Version header always equals "3". -/
theorem c9_header_invariant (apiKey accessToken : Option String)
    (session : List (String × String)) :
    dictGet (updateHeaders apiKey accessToken session) "X-Kite-Version" = some "3"
    ∧ (pyTruthy apiKey = true →
        dictGet (updateHeaders apiKey accessToken session) "Authorization"
          = some ("token " ++ apiKey.getD "" ++ ":" ++ accessToken.getD ""))
    ∧ (pyTruthy apiKey = false →
        dictGet (updateHeaders apiKey accessToken session) "Authorization"
          = dictGet session "Authorization") := by
  refine ⟨?_, ?_, ?_⟩
  · rcases hA : pyTruthy apiKey
    · rw [updateHeaders]
      simp only [hA, Bool.false_eq_true, if_false]
      rw [dictGet_upsert_ne _ _ _ _ (by decide)]
      exact dictGet_upsert_self _ _ _
    · rw [updateHeaders]
      simp only [hA, if_true]
      rw [dictGet_upsert_ne _ _ _ _ (by decide),
          dictGet_upsert_ne _ _ _ _ (by decide)]
      exact dictGet_upsert_self _ _ _
  · intro hA
    rw [updateHeaders]
    simp only [hA, if_true]
    rw [dictGet_upsert_self, tokenPart_eq]
  · intro hA
    rw [updateHeaders]
    simp only [hA, Bool.false_eq_true, if_false]
    rw [dictGet_upsert_ne _ _ _ _ (by decide),
        dictGet_upsert_ne _ _ _ _ (by decide)]

/-- C9 witness: with api_key "k" and no access token yet, starting from an
empty session, the headers are "token k:" and version "3"; with api_key
absent, no Authorization header appears. -/
theorem c9_header_invariant_witness :
    dictGet (updateHeaders (some "k") none []) "X-Kite-Version" = some "3"
    ∧ dictGet (updateHeaders (some "k") none []) "Authorization" = some "token k:"
    ∧ dictGet (updateHeaders none (some "t") []) "Authorization" = none :=
  ⟨(c9_header_invariant (some "k") none []).1,
   (c9_header_invariant (some "k") none []).2.1 rfl,
   (c9_header_invariant none (some "t") []).2.2 rfl⟩

/-- C10: get_quote with zero instruments raises the Input-kind error locally
with zero transport calls; with at least one instrument it issues exactly
one GET /quote request whose query parameter "i" is bound to the full
instrument list in the order given. -/
theorem c10_get_quote_instruments (instruments : List String) :
    (instruments = [] →
      getQuote instruments
        = { outcome := .error { kind := .input
                              , message := "At least one instrument must be provided for a quote."
                              , code := none }
          , transportCalls := 0 })
    ∧ (instruments ≠ [] →
        (getQuote instruments).outcome
          = .ok { method := "GET", route := "/quote", params := [("i", instruments)] }
        ∧ (getQuote instruments).transportCalls = 1) := by
  constructor
  · intro h
    subst h
    rfl
  · intro h
    cases instruments with
    | nil => exact absurd rfl h
    | cons a as => exact ⟨rfl, rfl⟩

/-- C10 witness: the empty call and a two-instrument call. -/
theorem c10_get_quote_instruments_witness :
    (getQuote []).transportCalls = 0
    ∧ (getQuote ["NSE:INFY", "NSE:RELIANCE"]).outcome
        = .ok { method := "GET", route := "/quote"
              , params := [("i", ["NSE:INFY", "NSE:RELIANCE"])] }
    ∧ (getQuote ["NSE:INFY", "NSE:RELIANCE"]).transportCalls = 1 := by
  refine ⟨?_, ?_, ?_⟩
  · rw [(c10_get_quote_instruments []).1 rfl]
  · exact ((c10_get_quote_instruments ["NSE:INFY", "NSE:RELIANCE"]).2 (by decide)).1
  · exact ((c10_get_quote_instruments ["NSE:INFY", "NSE:RELIANCE"]).2 (by decide)).2
